import Mathlib

/-!
# Verification of the firewall event monitor core (src/firewall.c)

A shallow embedding of the event-subscription, negotiation, decoding and
visibility-filtering core of `src/firewall.c`, with theorems settling the
frozen claims about it.

Modelling conventions:
* Machine integers (`UINT64`, `DWORD`, flag words) become `Nat`; the API
  level `fw_api` is an `int` and becomes `Int`.
* Wide strings after `WideCharToMultiByte` conversion become `String`
  values carried directly on the modelled event (a failed conversion is
  represented by the value the C code substitutes, e.g. `"?"`).
* NULL-able pointers become `Option`.
* The external collaborators (engine resolution calls, the exclusion-list
  configuration of `exclude_list_get`, `basename`, SID/account lookup) are
  parameters of the model, threaded explicitly where the C code consults
  globals.
* The text buffer (`fw_buf_*` / `trace_*`) has no effect on control flow,
  counters, or caches, so buffer-only helpers are not modelled; only the
  boolean results the callback branches on are kept.
-/

namespace Firewall

/-! ## Constants from src/firewall.c -/

/-- firewall.c:104 -/
def FW_API_LOW : Int := 0
/-- firewall.c:105 -/
def FW_API_HIGH : Int := 4
/-- firewall.c:106 -/
def FW_API_DEFAULT : Int := 3

/-- Embedding of `ERROR_SUCCESS` from the Windows SDK `<winerror.h>`. -/
def ERROR_SUCCESS : Nat := 0
/-- Embedding of `ERROR_INVALID_DATA` (13) from `<winerror.h>`. -/
def ERROR_INVALID_DATA : Nat := 13
/-- Embedding of `ERROR_BAD_COMMAND` (22) from `<winerror.h>`. -/
def ERROR_BAD_COMMAND : Nat := 22

/-! ## The filter-name cache (`fw_filter_list`, firewall.c:3213-3242) -/

/-- Embedding of `struct filter_entry`: a numeric filter id with its resolved display
name.  `name` is `"?"` when resolution failed. -/
structure filter_entry where
  value : Nat
  name  : String
deriving DecidableEq, Repr

/-- firewall.c:3215: `static struct filter_entry null_filter = { 0, "NULL" };` -/
def null_filter : filter_entry := { value := 0, name := "NULL" }

/-- Embedding of `lookup_or_add_filter` (firewall.c:3213-3242).  `resolve` models the
`FwpmFilterGetById0` + `WideCharToMultiByte` engine round trip: it returns
`some name` on `ERROR_SUCCESS` and `none` on failure (in which case the
entry keeps the `"?"` written by the `strcpy` before the call), threading
an oracle state `ρ` so that resolution attempts can be counted.  The
returned `Bool` records whether a resolution attempt was made.  The cache
is searched front to back (the `smartlist_get` loop) and extended at the
back (`smartlist_add`). -/
def lookup_or_add_filter {ρ : Type} (resolve : ρ → Nat → Option String × ρ)
    (st : ρ × List filter_entry) (filter : Nat) :
    filter_entry × (ρ × List filter_entry) × Bool :=
  if filter = 0 then (null_filter, st, false)
  else
    match st.2.find? (fun fe => fe.value == filter) with
    | some fe => (fe, st, false)
    | none =>
      let res := resolve st.1 filter
      let fe : filter_entry := { value := filter, name := res.1.getD "?" }
      (fe, (res.2, st.2 ++ [fe]), true)

/-! ## The identity (SID) cache (`fw_SID_list`, firewall.c:3664-3686) -/

/-- What `lookup_or_add_SID` computes for a fresh SID:
`ConvertSidToStringSid` (which can fail, leaving the `calloc`-zeroed
`NULL`, hence `Option`) and `lookup_account_SID`'s account/domain output
(firewall.c:3613-3658). -/
structure SID_info where
  sid_str : Option String
  account : String
  domain  : String
deriving DecidableEq, Repr

/-- Embedding of `struct SID_entry`: the copied SID (compared by value via `EqualSid`,
modelled as a `Nat` key), its string form, and the resolved account and
domain names. -/
structure SID_entry where
  sid_copy : Nat
  sid_str  : Option String
  account  : String
  domain   : String
deriving DecidableEq, Repr

/-- Embedding of `lookup_or_add_SID` (firewall.c:3664-3686).  `resolve` models
`ConvertSidToStringSid` + `lookup_account_SID`, threading an oracle state
`ρ`.  The returned `Bool` records whether a resolution attempt was made. -/
def lookup_or_add_SID {ρ : Type} (resolve : ρ → Nat → SID_info × ρ)
    (st : ρ × List SID_entry) (sid : Nat) :
    SID_entry × (ρ × List SID_entry) × Bool :=
  match st.2.find? (fun se => se.sid_copy == sid) with
  | some se => (se, st, false)
  | none =>
    let res := resolve st.1 sid
    let se : SID_entry := { sid_copy := sid, sid_str := res.1.sid_str,
                            account := res.1.account, domain := res.1.domain }
    (se, (res.2, st.2 ++ [se]), true)

end Firewall

namespace Firewall

/-- Iterated filter-cache lookups: the trace pairs each requested key with
the entry returned and whether a resolution attempt was made for it. -/
def runFilterLookups {ρ : Type} (resolve : ρ → Nat → Option String × ρ) :
    ρ × List filter_entry → List Nat → List (Nat × filter_entry × Bool)
  | _, [] => []
  | st, k :: ks =>
    let r := lookup_or_add_filter resolve st k
    (k, r.1, r.2.2) :: runFilterLookups resolve r.2.1 ks

/-- Iterated SID-cache lookups, with the same trace shape. -/
def runSIDLookups {ρ : Type} (resolve : ρ → Nat → SID_info × ρ) :
    ρ × List SID_entry → List Nat → List (Nat × SID_entry × Bool)
  | _, [] => []
  | st, k :: ks =>
    let r := lookup_or_add_SID resolve st k
    (k, r.1, r.2.2) :: runSIDLookups resolve r.2.1 ks

end Firewall

namespace Firewall

/-! ## API-level negotiation (`fw_monitor_subscribe`, firewall.c:1965-2008)

`present n` models the availability of the `FwpmNetEventSubscribeN` entry
point (`p_FwpmNetEventSubscribeN != NULL`); `subscribe n` models the error
code such a call returns (`ERROR_SUCCESS` = accepted). -/

/-- Outcome of `fw_monitor_subscribe`: `ok n` is the C function returning
`TRUE` after `FwpmNetEventSubscriben()` succeeded; `fail e` is returning
`FALSE` with `fw_errno = e`. -/
inductive SubscribeOutcome
  | ok (level : Nat)
  | fail (fw_errno : Nat)
deriving DecidableEq, Repr

/-- One expansion of the `SET_API_CALLBACK(N)` macro (firewall.c:1967-1989).
Returns `(some outcome, _)` when the macro's body executes a `return`, and
`(none, e)` when control falls through to the next expansion with
`fw_errno = e`. -/
def set_api_callback (api_level : Int) (present : Nat → Bool) (subscribe : Nat → Nat)
    (n : Nat) (fw_errno : Nat) : Option SubscribeOutcome × Nat :=
  -- `if (api_level == N && p_FwpmNetEventSubscribeN)` ... call it
  let attempt : Option SubscribeOutcome × Nat :=
    if api_level = (n : Int) ∧ present n = true then
      let e := subscribe n
      (if e = ERROR_SUCCESS then some (SubscribeOutcome.ok n) else none, e)
    else (none, fw_errno)
  match attempt with
  | (some r, e) => (some r, e)
  | (none, e) =>
    -- `if (api_level >= N && !p_FwpmNetEventSubscribeN)` ... fail
    if api_level ≥ (n : Int) ∧ present n = false then
      (some (SubscribeOutcome.fail ERROR_BAD_COMMAND), ERROR_BAD_COMMAND)
    else (none, e)

/-- Embedding of `fw_monitor_subscribe` (firewall.c:1965-2008): bounds check on
`fw_api`, then the five `SET_API_CALLBACK` expansions for N = 4..0, and
finally `return (FALSE)` with the last `fw_errno` observed. -/
def fw_monitor_subscribe (fw_api : Int) (present : Nat → Bool) (subscribe : Nat → Nat)
    (fw_errno0 : Nat) : SubscribeOutcome :=
  if fw_api < FW_API_LOW ∨ fw_api > FW_API_HIGH then SubscribeOutcome.fail ERROR_INVALID_DATA
  else
    match set_api_callback fw_api present subscribe 4 fw_errno0 with
    | (some r, _) => r
    | (none, e4) =>
      match set_api_callback fw_api present subscribe 3 e4 with
      | (some r, _) => r
      | (none, e3) =>
        match set_api_callback fw_api present subscribe 2 e3 with
        | (some r, _) => r
        | (none, e2) =>
          match set_api_callback fw_api present subscribe 1 e2 with
          | (some r, _) => r
          | (none, e1) =>
            match set_api_callback fw_api present subscribe 0 e1 with
            | (some r, _) => r
            | (none, e0) => SubscribeOutcome.fail e0

end Firewall

namespace Firewall

/-! ## The event model and `fw_event_callback` (firewall.c:3749-3904) -/

/-- Event-header presence flags (firewall.c:909-922). -/
def FWPM_NET_EVENT_FLAG_IP_PROTOCOL_SET : Nat := 0x00000001
def FWPM_NET_EVENT_FLAG_LOCAL_ADDR_SET : Nat := 0x00000002
def FWPM_NET_EVENT_FLAG_REMOTE_ADDR_SET : Nat := 0x00000004
def FWPM_NET_EVENT_FLAG_LOCAL_PORT_SET : Nat := 0x00000008
def FWPM_NET_EVENT_FLAG_REMOTE_PORT_SET : Nat := 0x00000010
def FWPM_NET_EVENT_FLAG_APP_ID_SET : Nat := 0x00000020
def FWPM_NET_EVENT_FLAG_USER_ID_SET : Nat := 0x00000040
def FWPM_NET_EVENT_FLAG_SCOPE_ID_SET : Nat := 0x00000080
def FWPM_NET_EVENT_FLAG_IP_VERSION_SET : Nat := 0x00000100
def FWPM_NET_EVENT_FLAG_REAUTH_REASON_SET : Nat := 0x00000200
def FWPM_NET_EVENT_FLAG_PACKAGE_ID_SET : Nat := 0x00000400

/-- Embedding of `FWP_DIRECTION_IN` / `FWP_DIRECTION_OUT` (firewall.c:665-666). -/
def FWP_DIRECTION_IN : Nat := 0x00003900
def FWP_DIRECTION_OUT : Nat := 0x00003901
/-- Embedding of `FWP_DIRECTION_OUTBOUND` / `FWP_DIRECTION_INBOUND` from the Windows
SDK `<fwptypes.h>` enum `FWP_DIRECTION` (not redefined in firewall.c):
`FWP_DIRECTION_OUTBOUND = 0`, `FWP_DIRECTION_INBOUND = 1`. -/
def FWP_DIRECTION_OUTBOUND : Nat := 0
def FWP_DIRECTION_INBOUND : Nat := 1

/-- Embedding of `FWP_IP_VERSION` from the Windows SDK `<fwptypes.h>`; only equality
with `V4`/`V6` is used by firewall.c. -/
inductive FWP_IP_VERSION
  | V4
  | V6
  | NONE
deriving DecidableEq, Repr

/-- Embedding of `_FWPM_NET_EVENT_TYPE` (firewall.c:446-459). -/
inductive NetEventType
  | IKEEXT_MM_FAILURE
  | IKEEXT_QM_FAILURE
  | IKEEXT_EM_FAILURE
  | CLASSIFY_DROP
  | IPSEC_KERNEL_DROP
  | IPSEC_DOSP_DROP
  | CLASSIFY_ALLOW
  | CAPABILITY_DROP
  | CAPABILITY_ALLOW
  | CLASSIFY_DROP_MAC
  | LPM_PACKET_ARRIVAL
deriving DecidableEq, Repr

/-- The fields of `_FWPM_NET_EVENT_HEADER3` that the callback path reads.
`localAddrStr`/`remoteAddrStr` are the textual addresses produced by the
byte-swap + `inet_ntop` steps; `appIdName` is the `appId` blob after
`WideCharToMultiByte` and `volume_to_path` (`none` models a NULL/empty
`appId.data`, a failed conversion is the `"?"` the C code substitutes);
`userId`/`packageSid` are NULL-able SID pointers whose pointees are
compared by value. -/
structure EventHeader where
  flags : Nat
  ipVersion : FWP_IP_VERSION
  ipProtocol : Nat
  localAddrStr : String
  remoteAddrStr : String
  scopeId : Nat
  appIdName : Option String
  userId : Option Nat
  packageSid : Option Nat
  effectiveName : Option String
deriving Repr

/-- Fields of `_FWPM_NET_EVENT_CLASSIFY_DROP2` / `_FWPM_NET_EVENT_CLASSIFY_ALLOW0`
read by the callback (firewall.c:689-712). -/
structure ClassifyPayload where
  filterId : Nat
  layerId : Nat
  reauthReason : Nat
  msFwpDirection : Nat
deriving DecidableEq, Repr

/-- Fields of `_FWPM_NET_EVENT_CAPABILITY_DROP0` / `_FWPM_NET_EVENT_CAPABILITY_ALLOW0`
read by the callback. -/
structure CapabilityPayload where
  networkCapabilityId : Nat
  isLoopback : Bool
  filterId : Nat
deriving DecidableEq, Repr

/-- The tagged union dispatched on by `fw_event_callback`.  The
`FW_EVENT_CALLBACK` thunks (firewall.c:1610-1660) pass exactly one
non-NULL payload pointer matching `event->type`, which this sum type
renders directly; `other ty` covers the kinds the callback's final `else`
returns on (IKE/IPsec/MAC/LPM). -/
inductive EventPayload
  | classifyDrop (d : ClassifyPayload)
  | classifyAllow (a : ClassifyPayload)
  | capabilityDrop (c : CapabilityPayload)
  | capabilityAllow (c : CapabilityPayload)
  | other (ty : NetEventType)
deriving DecidableEq, Repr

/-- One delivered net event: header plus kind-tagged payload. -/
structure FwEvent where
  header : EventHeader
  payload : EventPayload
deriving Repr

/-- The four kinds given a dedicated branch by `fw_event_callback`. -/
def decoded_kind : EventPayload → Bool
  | .classifyDrop _ => true
  | .classifyAllow _ => true
  | .capabilityDrop _ => true
  | .capabilityAllow _ => true
  | .other _ => false

/-- Embedding of `g_cfg.firewall` visibility configuration. -/
structure FirewallCfg where
  show_all : Bool
  show_ipv4 : Bool
  show_ipv6 : Bool
  show_user : Bool
deriving DecidableEq, Repr

/-- The globals and external collaborators the callback path consults:
the visibility configuration, the program/logged-on-user names, the
exclusion lists behind `exclude_list_get`, `basename`, and the two
engine/identity resolution calls (pure here; resolution counting is done
through the `ρ`-threaded forms above). -/
structure FwEnv where
  cfg : FirewallCfg
  fw_module : String
  fw_logged_on_user : String
  exclAddr : String → Bool
  exclProg : String → Bool
  basenameOf : String → String
  filterResolve : Nat → Option String
  sidResolve : Nat → SID_info

/-- The mutable globals the callback path updates. -/
structure FwState where
  fw_num_events : Nat
  fw_num_ignored : Nat
  fw_filter_list : List filter_entry
  fw_SID_list : List SID_entry
deriving Repr

/-- How the callback disposed of one event: flushed to the trace
(`fw_num_events++`), discarded (`fw_num_ignored++`), or the final-`else`
return for kinds without a decode branch. -/
inductive CallbackResult
  | emitted
  | ignored
  | skipped
deriving DecidableEq, Repr

/-- Embedding of `stricmp(a, b) == 0`: ASCII case-insensitive string equality. -/
def stricmp_eq (a b : String) : Bool :=
  a.data.map Char.toLower == b.data.map Char.toLower

/-- Embedding of `NULL_SID` (firewall.c:3715). -/
def NULL_SID : String := "S-1-0-0"

/-- The pure filter resolver lifted to the `ρ = Unit` oracle shape. -/
def pureFilterResolver (env : FwEnv) : Unit → Nat → Option String × Unit :=
  fun _ f => (env.filterResolve f, ())

/-- The pure SID resolver lifted to the `ρ = Unit` oracle shape. -/
def pureSidResolver (env : FwEnv) : Unit → Nat → SID_info × Unit :=
  fun _ s => (env.sidResolve s, ())

/-- Embedding of `print_addresses_ipv4` (firewall.c:3407-3464): `TRUE` iff the event is
IPv4 with addresses present and neither textual address is excluded.
Buffer output and the country lookup have no decision effect. -/
def print_addresses_ipv4 (env : FwEnv) (header : EventHeader) : Bool :=
  if header.ipVersion ≠ FWP_IP_VERSION.V4 then false
  else if header.flags &&& FWPM_NET_EVENT_FLAG_IP_VERSION_SET = 0 ∨
          header.flags &&& (FWPM_NET_EVENT_FLAG_LOCAL_ADDR_SET |||
                            FWPM_NET_EVENT_FLAG_REMOTE_ADDR_SET) = 0 then false
  else
    let local_addr := if header.flags &&& FWPM_NET_EVENT_FLAG_LOCAL_ADDR_SET ≠ 0
                      then header.localAddrStr else "-"
    let remote_addr := if header.flags &&& FWPM_NET_EVENT_FLAG_REMOTE_ADDR_SET ≠ 0
                       then header.remoteAddrStr else "-"
    if local_addr.front ≠ '-' ∧ env.exclAddr local_addr = true then false
    else if remote_addr.front ≠ '-' ∧ env.exclAddr remote_addr = true then false
    else true

/-- Embedding of `print_addresses_ipv6` (firewall.c:3469-3522), same structure for V6. -/
def print_addresses_ipv6 (env : FwEnv) (header : EventHeader) : Bool :=
  if header.ipVersion ≠ FWP_IP_VERSION.V6 then false
  else if header.flags &&& FWPM_NET_EVENT_FLAG_IP_VERSION_SET = 0 ∨
          header.flags &&& (FWPM_NET_EVENT_FLAG_LOCAL_ADDR_SET |||
                            FWPM_NET_EVENT_FLAG_REMOTE_ADDR_SET) = 0 then false
  else
    let local_addr := if header.flags &&& FWPM_NET_EVENT_FLAG_LOCAL_ADDR_SET ≠ 0
                      then header.localAddrStr else "-"
    let remote_addr := if header.flags &&& FWPM_NET_EVENT_FLAG_REMOTE_ADDR_SET ≠ 0
                       then header.remoteAddrStr else "-"
    if local_addr.front ≠ '-' ∧ env.exclAddr local_addr = true then false
    else if remote_addr.front ≠ '-' ∧ env.exclAddr remote_addr = true then false
    else true

/-- Embedding of `print_app_id` (firewall.c:3552-3590): `TRUE` when no excludable app
id is present; with `show_all == 0`, `TRUE` only for events whose program
is this process's own module; with `show_all` set, `FALSE` iff the program
(basename or full name) is on the `EXCL_PROGRAM` exclusion list. -/
def print_app_id (env : FwEnv) (header : EventHeader) : Bool :=
  match header.appIdName with
  | none => true
  | some a_name =>
    if header.flags &&& FWPM_NET_EVENT_FLAG_APP_ID_SET = 0 then true
    else
      let a_base := env.basenameOf a_name
      if env.cfg.show_all = false then
        stricmp_eq env.fw_module a_name || stricmp_eq env.fw_module a_base
      else if env.exclProg a_base || env.exclProg a_name then false
      else true

/-- Embedding of `print_user_id` (firewall.c:3691-3708): resolves `header->userId`
through the SID cache and suppresses (`FALSE`) the logged-on user's own
events when `show_user` is set. -/
def print_user_id (env : FwEnv) (sidList : List SID_entry) (header : EventHeader) :
    Bool × List SID_entry :=
  if header.flags &&& FWPM_NET_EVENT_FLAG_USER_ID_SET = 0 then (true, sidList)
  else
    match header.userId with
    | none => (true, sidList)
    | some sid =>
      let r := lookup_or_add_SID (pureSidResolver env) ((), sidList) sid
      if env.cfg.show_user = true ∧ stricmp_eq r.1.account env.fw_logged_on_user = true
      then (false, r.2.1.2)
      else (true, r.2.1.2)

/-- Embedding of `print_package_id` (firewall.c:3713-3729): resolves
`header->packageSid` through the SID cache; prints (`TRUE`) iff the SID
string converted and, unless `show_all`, differs from the null SID. -/
def print_package_id (env : FwEnv) (sidList : List SID_entry) (header : EventHeader) :
    Bool × List SID_entry :=
  if header.flags &&& FWPM_NET_EVENT_FLAG_PACKAGE_ID_SET = 0 then (true, sidList)
  else
    match header.packageSid with
    | none => (true, sidList)
    | some sid =>
      let r := lookup_or_add_SID (pureSidResolver env) ((), sidList) sid
      match r.1.sid_str with
      | some s =>
        if env.cfg.show_all = true ∨ s ≠ NULL_SID then (true, r.2.1.2)
        else (false, r.2.1.2)
      | none => (false, r.2.1.2)

/-- Embedding of `print_filter_rule` (firewall.c:3281-3299): on a non-zero filter id,
resolve it through the filter-name cache and report `TRUE`. -/
def print_filter_rule (env : FwEnv) (fl : List filter_entry) (filterId : Nat) :
    Bool × List filter_entry :=
  if filterId ≠ 0 then
    let r := lookup_or_add_filter (pureFilterResolver env) ((), fl) filterId
    (true, r.2.1.2)
  else (false, fl)

/-- Embedding of `print_layer_item2` (firewall.c:3263-3279): the capability branch's
first filter-cache consultation (inside the `layer2:` line). -/
def print_layer_item2 (env : FwEnv) (fl : List filter_entry) (filterId : Nat) :
    Bool × List filter_entry :=
  if filterId ≠ 0 then
    let r := lookup_or_add_filter (pureFilterResolver env) ((), fl) filterId
    (true, r.2.1.2)
  else (false, fl)

/-- Embedding of `print_filter_rule2` (firewall.c:3301-3317): the capability branch's
unconditional filter-cache consultation. -/
def print_filter_rule2 (env : FwEnv) (fl : List filter_entry) (filterId : Nat) :
    Bool × List filter_entry :=
  let r := lookup_or_add_filter (pureFilterResolver env) ((), fl) filterId
  (true, r.2.1.2)

/-- The `direction_in` computation of the `CLASSIFY_DROP` / `CLASSIFY_ALLOW`
branches (firewall.c:3790-3801 and 3815-3826): recognised inbound codes
win, else recognised outbound codes, else the "API 0-2 doesn't set
`msFwpDirection` correctly" default of inbound. -/
def classify_direction_in (ms : Nat) : Bool :=
  if ms = FWP_DIRECTION_IN ∨ ms = FWP_DIRECTION_INBOUND then true
  else if ms = FWP_DIRECTION_OUT ∨ ms = FWP_DIRECTION_OUTBOUND then false
  else true

/-- The IPv4/IPv6 visibility gate at the top of `fw_event_callback`
(firewall.c:3765-3774). -/
def ip_version_gate (env : FwEnv) (header : EventHeader) : Bool :=
  header.flags &&& FWPM_NET_EVENT_FLAG_IP_VERSION_SET ≠ 0 ∧
  ((header.ipVersion = FWP_IP_VERSION.V4 ∧ env.cfg.show_ipv4 = false) ∨
   (header.ipVersion = FWP_IP_VERSION.V6 ∧ env.cfg.show_ipv6 = false))

/-- The common tail of `fw_event_callback` (firewall.c:3861-3896): address
printing, app/user/package processing, the two `address_printed`
downgrades, and the final emit-or-ignore decision.  `fl` is the filter
cache as left by the kind-specific branch. -/
def fw_event_tail (env : FwEnv) (st : FwState) (direction_in : Bool)
    (fl : List filter_entry) (header : EventHeader) : FwState × CallbackResult :=
  -- `direction_in` only orders the two printed addresses (firewall.c:3453-3455,
  -- 3514-3516); it does not influence the emit-or-ignore decision.
  let address_printed0 := print_addresses_ipv4 env header || print_addresses_ipv6 env header
  let program_printed := print_app_id env header
  let up := print_user_id env st.fw_SID_list header
  let pp := print_package_id env up.2 header
  -- `if (!user_printed) address_printed = FALSE;`
  let address_printed1 := address_printed0 && up.1
  -- `if (!program_printed) address_printed = FALSE;`
  let address_printed2 := address_printed1 && program_printed
  if address_printed2 || program_printed || up.1 || pp.1 then
    ({ fw_num_events := st.fw_num_events + 1, fw_num_ignored := st.fw_num_ignored,
       fw_filter_list := fl, fw_SID_list := pp.2 }, CallbackResult.emitted)
  else
    ({ fw_num_events := st.fw_num_events, fw_num_ignored := st.fw_num_ignored + 1,
       fw_filter_list := fl, fw_SID_list := pp.2 }, CallbackResult.ignored)

/-- Embedding of `fw_event_callback` (firewall.c:3749-3904): the IP-version gate, the
per-kind branch (direction decode + layer/filter resolution), and the
common tail.  `print_layer_item` for Classify kinds resolves layer names
through the engine but touches no cache or counter, so it does not appear.
The `direction_in`/`direction_out` booleans only order the printed
addresses; the address-printing decision itself is direction-independent,
so the tail does not take them. -/
def fw_event_callback (env : FwEnv) (st : FwState) (ev : FwEvent) :
    FwState × CallbackResult :=
  if ip_version_gate env ev.header then
    ({ st with fw_num_ignored := st.fw_num_ignored + 1 }, CallbackResult.ignored)
  else
    match ev.payload with
    | .classifyDrop d =>
      let fr := print_filter_rule env st.fw_filter_list d.filterId
      fw_event_tail env st (classify_direction_in d.msFwpDirection) fr.2 ev.header
    | .classifyAllow a =>
      let fr := print_filter_rule env st.fw_filter_list a.filterId
      fw_event_tail env st (classify_direction_in a.msFwpDirection) fr.2 ev.header
    | .capabilityDrop c =>
      -- the capability branches set `direction_in = TRUE` (firewall.c:3840, 3850)
      let li := print_layer_item2 env st.fw_filter_list c.filterId
      let fr := print_filter_rule2 env li.2 c.filterId
      fw_event_tail env st true fr.2 ev.header
    | .capabilityAllow c =>
      let li := print_layer_item2 env st.fw_filter_list c.filterId
      let fr := print_filter_rule2 env li.2 c.filterId
      fw_event_tail env st true fr.2 ev.header
    | .other _ => (st, CallbackResult.skipped)  -- `else return; /* Impossible */`

end Firewall

namespace Firewall

/-! ## Rule enumeration (`fw_enumerate_rules` / `fw_dump_rule`,
firewall.c:2129-2206) -/

/-- Embedding of `FW_DIRECTION` values used by `fw_dump_rule` (firewall.c enum
`FW_DIRECTION`): `FW_DIR_INVALID = 0`, `FW_DIR_IN = 1`, `FW_DIR_OUT = 2`,
`FW_DIR_BOTH = 3`. -/
def FW_DIR_INVALID : Nat := 0
def FW_DIR_IN : Nat := 1
def FW_DIR_OUT : Nat := 2
def FW_DIR_BOTH : Nat := 3

/-- The `FW_RULE` fields `fw_dump_rule` reads.  Wide strings are carried
post-conversion; `wszDescription = none` models a failed
`WideCharToMultiByte` (the C substitutes `"?"`). -/
structure FW_RULE where
  Direction : Nat
  Status : Nat
  wszName : Option String
  wszDescription : Option String
  wszLocalApplication : Option String
  wszEmbeddedContext : Option String
deriving DecidableEq, Repr

/-- What `fw_dump_rule` emits for one rule. -/
structure DumpedRule where
  dir : String
  desc : String
  name : Option String
  prog : Option String
  context : Option String
deriving DecidableEq, Repr

/-- The direction string of `fw_dump_rule` (firewall.c:2131-2134). -/
def fw_rule_dir_string (d : Nat) : String :=
  if d = FW_DIR_INVALID then "INV"
  else if d = FW_DIR_IN then "IN"
  else if d = FW_DIR_OUT then "OUT"
  else if d = FW_DIR_BOTH then "BOTH"
  else "?"

/-- Embedding of `fw_dump_rule` (firewall.c:2129-2167): formats every rule it is given;
it never branches on `rule->Status` (the status line is commented out). -/
def fw_dump_rule (rule : FW_RULE) : DumpedRule :=
  { dir := fw_rule_dir_string rule.Direction,
    desc := rule.wszDescription.getD "?",
    name := rule.wszName,
    prog := rule.wszLocalApplication,
    context := rule.wszEmbeddedContext }

/-- Embedding of `fw_enumerate_rules` (firewall.c:2169-2206): the engine is asked for
`FW_RULE_STATUS_CLASS_ALL` rules; on failure the function returns `-1`, on
success it walks the linked batch (`rule && num < rule_count`) dumping
every rule, and returns the number dumped.  `enum_result` models the
`FWEnumFirewallRules` round trip: `none` is a non-`ERROR_SUCCESS` return,
`some (rule_count, rules)` the returned count and linked list. -/
def fw_enumerate_rules (enum_result : Option (Nat × List FW_RULE)) :
    Int × List DumpedRule :=
  match enum_result with
  | none => (-1, [])
  | some (rule_count, rules) =>
    let dumped := (rules.take rule_count).map fw_dump_rule
    ((dumped.length : Int), dumped)

/-- Modelled from the spec: the coarse status classification.  src/
declares the `FW_RULE_STATUS` codes and the `FW_RULE_STATUS_CLASS` buckets
(firewall.c:162-327) but contains no executable bucketing code (the status
line in `fw_dump_rule` is commented out); per those declarations a status
code is `class | sub-code` with the class in the high 16 bits
(`FW_RULE_STATUS_ALL = 0xFFFF0000`), so the coarse class of a (32-bit)
status code is its high 16 bits. -/
def fw_rule_status_class (s : Nat) : Nat := s / 0x10000 * 0x10000

/-- Embedding of `FW_RULE_STATUS_CLASS_SEMANTIC_ERROR = FW_RULE_STATUS_SEMANTIC_ERROR`
(firewall.c:303,323). -/
def FW_RULE_STATUS_CLASS_SEMANTIC_ERROR : Nat := 0x00100000
/-- Embedding of `FW_RULE_STATUS_ERROR` = parsing | semantic | runtime error classes
(firewall.c:312-314). -/
def FW_RULE_STATUS_ERROR : Nat := 0x00380000

end Firewall

namespace Firewall

/-! ## Concrete instances used by counterexamples and witnesses -/

/-- The counters/caches at the start of a monitoring run
(`fw_num_events = fw_num_ignored = 0`, firewall.c:2074; empty caches). -/
def fw_state0 : FwState :=
  { fw_num_events := 0, fw_num_ignored := 0, fw_filter_list := [], fw_SID_list := [] }

/-- A baseline environment: everything visible, `evil.exe` on the program
exclusion list, `8.8.8.8` on the address exclusion list, the logged-on
user `alice`, every SID resolving to account `alice`. -/
def demoEnv : FwEnv :=
  { cfg := { show_all := true, show_ipv4 := true, show_ipv6 := true, show_user := false },
    fw_module := "wsock_trace.dll",
    fw_logged_on_user := "alice",
    exclAddr := fun s => s == "8.8.8.8",
    exclProg := fun s => s == "evil.exe",
    basenameOf := fun s => s,
    filterResolve := fun _ => some "DemoFilterRule",
    sidResolve := fun sid =>
      if sid == 99 then { sid_str := some "S-1-0-0", account := "pkg", domain := "" }
      else { sid_str := some "S-1-5-21-1", account := "alice", domain := "DOM" } }

/-- A `CLASSIFY_DROP` event marked IPv4 with no further optional fields. -/
def evV4Drop : FwEvent :=
  { header := { flags := FWPM_NET_EVENT_FLAG_IP_VERSION_SET, ipVersion := .V4,
                ipProtocol := 6, localAddrStr := "10.0.0.1", remoteAddrStr := "8.8.8.8",
                scopeId := 0, appIdName := none, userId := none, packageSid := none,
                effectiveName := none },
    payload := .classifyDrop { filterId := 7, layerId := 1, reauthReason := 0,
                               msFwpDirection := 1 } }

/-- C2's refuting configuration: `show_all = true` but IPv4 disabled. -/
def envShowAllV4Off : FwEnv :=
  { demoEnv with cfg := { show_all := true, show_ipv4 := false, show_ipv6 := true,
                          show_user := false } }

/-- C4-witness configuration: IPv6 disabled. -/
def envV6Off : FwEnv :=
  { demoEnv with cfg := { show_all := true, show_ipv4 := true, show_ipv6 := false,
                          show_user := false } }

/-- A `CLASSIFY_ALLOW` event marked IPv6. -/
def evV6Allow : FwEvent :=
  { header := { flags := FWPM_NET_EVENT_FLAG_IP_VERSION_SET, ipVersion := .V6,
                ipProtocol := 17, localAddrStr := "::1", remoteAddrStr := "2001:db8::1",
                scopeId := 0, appIdName := none, userId := some 42, packageSid := none,
                effectiveName := none },
    payload := .classifyAllow { filterId := 9, layerId := 2, reauthReason := 0,
                                msFwpDirection := 0 } }

/-- An `IKEEXT_MM_FAILURE` event marked IPv6 (C10's refuting input). -/
def evOtherV6 : FwEvent :=
  { header := { flags := FWPM_NET_EVENT_FLAG_IP_VERSION_SET, ipVersion := .V6,
                ipProtocol := 17, localAddrStr := "::1", remoteAddrStr := "2001:db8::1",
                scopeId := 0, appIdName := none, userId := none, packageSid := none,
                effectiveName := none },
    payload := .other .IKEEXT_MM_FAILURE }

/-- An `IKEEXT_QM_FAILURE` event that does not trip the IP-version gate. -/
def evOtherPlain : FwEvent :=
  { header := { flags := 0, ipVersion := .NONE, ipProtocol := 0, localAddrStr := "",
                remoteAddrStr := "", scopeId := 0, appIdName := none, userId := none,
                packageSid := none, effectiveName := none },
    payload := .other .IKEEXT_QM_FAILURE }

/-- C6's configuration: `show_all = false`, `show_user = true`. -/
def envSelfSuppress : FwEnv :=
  { demoEnv with cfg := { show_all := false, show_ipv4 := true, show_ipv6 := true,
                          show_user := true } }

/-- C6's refuting input: only a user id is present and it resolves to the
logged-on user; app id and package sid are absent. -/
def evUserOnly : FwEvent :=
  { header := { flags := FWPM_NET_EVENT_FLAG_USER_ID_SET, ipVersion := .V4,
                ipProtocol := 6, localAddrStr := "10.0.0.1", remoteAddrStr := "10.0.0.2",
                scopeId := 0, appIdName := none, userId := some 42, packageSid := none,
                effectiveName := none },
    payload := .classifyDrop { filterId := 0, layerId := 1, reauthReason := 0,
                               msFwpDirection := 0 } }

/-- C6-witness input: user id resolving to the logged-on user, an app id
that is not the monitored module, and a package sid whose string is the
null SID. -/
def evUserAppPkg : FwEvent :=
  { header := { flags := FWPM_NET_EVENT_FLAG_APP_ID_SET + FWPM_NET_EVENT_FLAG_USER_ID_SET +
                         FWPM_NET_EVENT_FLAG_PACKAGE_ID_SET,
                ipVersion := .V4, ipProtocol := 6, localAddrStr := "10.0.0.1",
                remoteAddrStr := "10.0.0.2", scopeId := 0,
                appIdName := some "c:\\apps\\other.exe", userId := some 42,
                packageSid := some 99, effectiveName := none },
    payload := .classifyDrop { filterId := 3, layerId := 1, reauthReason := 0,
                               msFwpDirection := 0x3901 } }

/-- C7's configuration: `show_all = true` together with `show_user = true`. -/
def envAllUser : FwEnv :=
  { demoEnv with cfg := { show_all := true, show_ipv4 := true, show_ipv6 := true,
                          show_user := true } }

/-- C7's refuting input: excluded program, self-suppressed user, but a
printable package sid. -/
def evExclProgPkg : FwEvent :=
  { header := { flags := FWPM_NET_EVENT_FLAG_APP_ID_SET + FWPM_NET_EVENT_FLAG_USER_ID_SET +
                         FWPM_NET_EVENT_FLAG_PACKAGE_ID_SET,
                ipVersion := .V4, ipProtocol := 6, localAddrStr := "10.0.0.1",
                remoteAddrStr := "10.0.0.2", scopeId := 0,
                appIdName := some "evil.exe", userId := some 42,
                packageSid := some 123, effectiveName := none },
    payload := .classifyDrop { filterId := 3, layerId := 1, reauthReason := 0,
                               msFwpDirection := 0x3900 } }

/-- A well-formed rule and one with a semantic-error status. -/
def demoRuleOk : FW_RULE :=
  { Direction := FW_DIR_IN, Status := 0x00010000, wszName := some "Allow web",
    wszDescription := some "ok rule", wszLocalApplication := none,
    wszEmbeddedContext := none }

/-- A rule whose status is `FW_RULE_STATUS_SEMANTIC_ERROR_PORTS` (0x00100020). -/
def demoRuleSemErr : FW_RULE :=
  { Direction := FW_DIR_OUT, Status := 0x00100020, wszName := some "Broken rule",
    wszDescription := none, wszLocalApplication := some "c:\\x.exe",
    wszEmbeddedContext := none }

end Firewall

namespace Firewall

/-! ## Cache lemmas (hit/miss behaviour and stability of the two caches) -/

section CacheLemmas

variable {ρ : Type}

lemma lookup_or_add_filter_hit (resolve : ρ → Nat → Option String × ρ)
    (st : ρ × List filter_entry) {k : Nat} (hk : k ≠ 0) {fe : filter_entry}
    (h : st.2.find? (fun e => e.value == k) = some fe) :
    lookup_or_add_filter resolve st k = (fe, st, false) := by
  simp [lookup_or_add_filter, hk, h]

lemma lookup_or_add_filter_find_after (resolve : ρ → Nat → Option String × ρ)
    (st : ρ × List filter_entry) {k : Nat} (hk : k ≠ 0) :
    ((lookup_or_add_filter resolve st k).2.1).2.find? (fun e => e.value == k)
      = some (lookup_or_add_filter resolve st k).1 := by
  unfold lookup_or_add_filter
  simp only [hk, if_false, ite_false]
  cases hfind : st.2.find? (fun e => e.value == k) with
  | some fe => simp [hfind]
  | none => simp [hfind, List.find?_append]

lemma lookup_or_add_filter_preserve_some (resolve : ρ → Nat → Option String × ρ)
    (st : ρ × List filter_entry) (j : Nat) {p : filter_entry → Bool} {fe : filter_entry}
    (h : st.2.find? p = some fe) :
    ((lookup_or_add_filter resolve st j).2.1).2.find? p = some fe := by
  unfold lookup_or_add_filter
  by_cases hj : j = 0
  · simp [hj, h]
  · simp only [hj, if_false, ite_false]
    cases hfind : st.2.find? (fun e => e.value == j) with
    | some fe' => simpa using h
    | none => simp [hfind, List.find?_append, h]

lemma lookup_or_add_filter_preserve_none (resolve : ρ → Nat → Option String × ρ)
    (st : ρ × List filter_entry) {k j : Nat} (hne : j ≠ k)
    (h : st.2.find? (fun e => e.value == k) = none) :
    ((lookup_or_add_filter resolve st j).2.1).2.find? (fun e => e.value == k) = none := by
  unfold lookup_or_add_filter
  by_cases hj : j = 0
  · simp [hj, h]
  · simp only [hj, if_false, ite_false]
    cases hfind : st.2.find? (fun e => e.value == j) with
    | some fe' => simpa using h
    | none => simp [hfind, List.find?_append, h, hne]

lemma runFilterLookups_after_found (resolve : ρ → Nat → Option String × ρ)
    {k : Nat} (hk : k ≠ 0) :
    ∀ (ks : List Nat) (st : ρ × List filter_entry) (fe : filter_entry),
      st.2.find? (fun e => e.value == k) = some fe →
      ∀ t ∈ runFilterLookups resolve st ks, t.1 = k → t.2.1 = fe ∧ t.2.2 = false := by
  intro ks
  induction ks with
  | nil => intro st fe _ t ht; simp [runFilterLookups] at ht
  | cons j ks ih =>
    intro st fe h t ht htk
    simp only [runFilterLookups, List.mem_cons] at ht
    rcases ht with rfl | hmem
    · simp only at htk
      subst htk
      rw [lookup_or_add_filter_hit resolve st hk h]
      exact ⟨rfl, rfl⟩
    · exact ih _ fe (lookup_or_add_filter_preserve_some resolve st j h) t hmem htk

lemma runFilterLookups_zero_key (resolve : ρ → Nat → Option String × ρ) :
    ∀ (ks : List Nat) (st : ρ × List filter_entry),
      ∀ t ∈ runFilterLookups resolve st ks, t.1 = 0 →
        t.2.1 = null_filter ∧ t.2.2 = false := by
  intro ks
  induction ks with
  | nil => intro st t ht; simp [runFilterLookups] at ht
  | cons j ks ih =>
    intro st t ht htk
    simp only [runFilterLookups, List.mem_cons] at ht
    rcases ht with rfl | hmem
    · simp only at htk
      subst htk
      simp [lookup_or_add_filter]
    · exact ih _ t hmem htk

lemma countP_eq_zero_of_entries {k : Nat} {tr : List (Nat × filter_entry × Bool)}
    (h : ∀ t ∈ tr, t.1 = k → t.2.2 = false) :
    tr.countP (fun t => t.1 == k && t.2.2) = 0 := by
  rw [List.countP_eq_zero]
  intro t ht
  simp only [Bool.and_eq_true, beq_iff_eq, not_and]
  intro hk
  simp [h t ht hk]

lemma runFilterLookups_spec_of_none (resolve : ρ → Nat → Option String × ρ)
    {k : Nat} (hk : k ≠ 0) :
    ∀ (ks : List Nat) (st : ρ × List filter_entry),
      st.2.find? (fun e => e.value == k) = none →
      (runFilterLookups resolve st ks).countP (fun t => t.1 == k && t.2.2) ≤ 1 ∧
      ∀ t1 ∈ runFilterLookups resolve st ks, ∀ t2 ∈ runFilterLookups resolve st ks,
        t1.1 = k → t2.1 = k → t1.2.1 = t2.2.1 := by
  intro ks
  induction ks with
  | nil => intro st _; simp [runFilterLookups]
  | cons j ks ih =>
    intro st h
    by_cases hj : j = k
    · subst hj
      -- the head lookup is the (at most one) miss; afterwards the key is cached
      have hafter := lookup_or_add_filter_find_after resolve st hk
      have hrest := runFilterLookups_after_found resolve hk ks
        ((lookup_or_add_filter resolve st j).2.1) ((lookup_or_add_filter resolve st j).1)
        hafter
      constructor
      · simp only [runFilterLookups]
        rw [List.countP_cons]
        have h0 := @countP_eq_zero_of_entries j
          (runFilterLookups resolve (lookup_or_add_filter resolve st j).2.1 ks)
          (fun t ht htk => (hrest t ht htk).2)
        rw [h0]
        split <;> omega
      · intro t1 ht1 t2 ht2 ht1k ht2k
        simp only [runFilterLookups, List.mem_cons] at ht1 ht2
        have hentry : ∀ t ∈ runFilterLookups resolve (lookup_or_add_filter resolve st j).2.1 ks,
            t.1 = j → t.2.1 = (lookup_or_add_filter resolve st j).1 :=
          fun t ht htk => (hrest t ht htk).1
        rcases ht1 with rfl | h1 <;> rcases ht2 with rfl | h2
        · rfl
        · exact (hentry t2 h2 ht2k).symm
        · exact hentry t1 h1 ht1k
        · rw [hentry t1 h1 ht1k, hentry t2 h2 ht2k]
    · have hnone := lookup_or_add_filter_preserve_none resolve st hj h
      obtain ⟨ihc, ihe⟩ := ih ((lookup_or_add_filter resolve st j).2.1) hnone
      constructor
      · simp only [runFilterLookups]
        rw [List.countP_cons]
        have hpred : ¬ ((fun (t : Nat × filter_entry × Bool) => t.1 == k && t.2.2)
            (j, (lookup_or_add_filter resolve st j).1,
              (lookup_or_add_filter resolve st j).2.2) = true) := by
          simp [hj]
        rw [if_neg hpred]
        simpa using ihc
      · intro t1 ht1 t2 ht2 ht1k ht2k
        simp only [runFilterLookups, List.mem_cons] at ht1 ht2
        rcases ht1 with rfl | h1
        · exact absurd ht1k hj
        rcases ht2 with rfl | h2
        · exact absurd ht2k hj
        exact ihe t1 h1 t2 h2 ht1k ht2k

lemma lookup_or_add_SID_hit (resolve : ρ → Nat → SID_info × ρ)
    (st : ρ × List SID_entry) {k : Nat} {se : SID_entry}
    (h : st.2.find? (fun e => e.sid_copy == k) = some se) :
    lookup_or_add_SID resolve st k = (se, st, false) := by
  simp [lookup_or_add_SID, h]

lemma lookup_or_add_SID_find_after (resolve : ρ → Nat → SID_info × ρ)
    (st : ρ × List SID_entry) (k : Nat) :
    ((lookup_or_add_SID resolve st k).2.1).2.find? (fun e => e.sid_copy == k)
      = some (lookup_or_add_SID resolve st k).1 := by
  unfold lookup_or_add_SID
  cases hfind : st.2.find? (fun e => e.sid_copy == k) with
  | some se => simp [hfind]
  | none => simp [hfind, List.find?_append]

lemma lookup_or_add_SID_preserve_some (resolve : ρ → Nat → SID_info × ρ)
    (st : ρ × List SID_entry) (j : Nat) {p : SID_entry → Bool} {se : SID_entry}
    (h : st.2.find? p = some se) :
    ((lookup_or_add_SID resolve st j).2.1).2.find? p = some se := by
  unfold lookup_or_add_SID
  cases hfind : st.2.find? (fun e => e.sid_copy == j) with
  | some se' => simpa using h
  | none => simp [hfind, List.find?_append, h]

lemma lookup_or_add_SID_preserve_none (resolve : ρ → Nat → SID_info × ρ)
    (st : ρ × List SID_entry) {k j : Nat} (hne : j ≠ k)
    (h : st.2.find? (fun e => e.sid_copy == k) = none) :
    ((lookup_or_add_SID resolve st j).2.1).2.find? (fun e => e.sid_copy == k) = none := by
  unfold lookup_or_add_SID
  cases hfind : st.2.find? (fun e => e.sid_copy == j) with
  | some se' => simpa using h
  | none => simp [hfind, List.find?_append, h, hne]

lemma runSIDLookups_after_found (resolve : ρ → Nat → SID_info × ρ) {k : Nat} :
    ∀ (ks : List Nat) (st : ρ × List SID_entry) (se : SID_entry),
      st.2.find? (fun e => e.sid_copy == k) = some se →
      ∀ t ∈ runSIDLookups resolve st ks, t.1 = k → t.2.1 = se ∧ t.2.2 = false := by
  intro ks
  induction ks with
  | nil => intro st se _ t ht; simp [runSIDLookups] at ht
  | cons j ks ih =>
    intro st se h t ht htk
    simp only [runSIDLookups, List.mem_cons] at ht
    rcases ht with rfl | hmem
    · simp only at htk
      subst htk
      rw [lookup_or_add_SID_hit resolve st h]
      exact ⟨rfl, rfl⟩
    · exact ih _ se (lookup_or_add_SID_preserve_some resolve st j h) t hmem htk

lemma countP_SID_eq_zero_of_entries {k : Nat} {tr : List (Nat × SID_entry × Bool)}
    (h : ∀ t ∈ tr, t.1 = k → t.2.2 = false) :
    tr.countP (fun t => t.1 == k && t.2.2) = 0 := by
  rw [List.countP_eq_zero]
  intro t ht
  simp only [Bool.and_eq_true, beq_iff_eq, not_and]
  intro hk
  simp [h t ht hk]

lemma runSIDLookups_spec_of_none (resolve : ρ → Nat → SID_info × ρ) {k : Nat} :
    ∀ (ks : List Nat) (st : ρ × List SID_entry),
      st.2.find? (fun e => e.sid_copy == k) = none →
      (runSIDLookups resolve st ks).countP (fun t => t.1 == k && t.2.2) ≤ 1 ∧
      ∀ t1 ∈ runSIDLookups resolve st ks, ∀ t2 ∈ runSIDLookups resolve st ks,
        t1.1 = k → t2.1 = k → t1.2.1 = t2.2.1 := by
  intro ks
  induction ks with
  | nil => intro st _; simp [runSIDLookups]
  | cons j ks ih =>
    intro st h
    by_cases hj : j = k
    · subst hj
      have hafter := lookup_or_add_SID_find_after resolve st j
      have hrest := runSIDLookups_after_found resolve ks
        ((lookup_or_add_SID resolve st j).2.1) ((lookup_or_add_SID resolve st j).1)
        hafter
      constructor
      · simp only [runSIDLookups]
        rw [List.countP_cons]
        have h0 := @countP_SID_eq_zero_of_entries j
          (runSIDLookups resolve (lookup_or_add_SID resolve st j).2.1 ks)
          (fun t ht htk => (hrest t ht htk).2)
        rw [h0]
        split <;> omega
      · intro t1 ht1 t2 ht2 ht1k ht2k
        simp only [runSIDLookups, List.mem_cons] at ht1 ht2
        have hentry : ∀ t ∈ runSIDLookups resolve (lookup_or_add_SID resolve st j).2.1 ks,
            t.1 = j → t.2.1 = (lookup_or_add_SID resolve st j).1 :=
          fun t ht htk => (hrest t ht htk).1
        rcases ht1 with rfl | h1 <;> rcases ht2 with rfl | h2
        · rfl
        · exact (hentry t2 h2 ht2k).symm
        · exact hentry t1 h1 ht1k
        · rw [hentry t1 h1 ht1k, hentry t2 h2 ht2k]
    · have hnone := lookup_or_add_SID_preserve_none resolve st hj h
      obtain ⟨ihc, ihe⟩ := ih ((lookup_or_add_SID resolve st j).2.1) hnone
      constructor
      · simp only [runSIDLookups]
        rw [List.countP_cons]
        have hpred : ¬ ((fun (t : Nat × SID_entry × Bool) => t.1 == k && t.2.2)
            (j, (lookup_or_add_SID resolve st j).1,
              (lookup_or_add_SID resolve st j).2.2) = true) := by
          simp [hj]
        rw [if_neg hpred]
        simpa using ihc
      · intro t1 ht1 t2 ht2 ht1k ht2k
        simp only [runSIDLookups, List.mem_cons] at ht1 ht2
        rcases ht1 with rfl | h1
        · exact absurd ht1k hj
        rcases ht2 with rfl | h2
        · exact absurd ht2k hj
        exact ihe t1 h1 t2 h2 ht1k ht2k

end CacheLemmas

/-- C9: the reserved zero filter id short-circuits `lookup_or_add_filter`
(firewall.c:3220-3221): the fixed `null_filter` sentinel is returned, the
resolver is not consulted (flag `false`, oracle state untouched) and
nothing is inserted into the cache. -/
theorem lookup_or_add_filter_zero {ρ : Type} (resolve : ρ → Nat → Option String × ρ)
    (st : ρ × List filter_entry) :
    lookup_or_add_filter resolve st 0 = (null_filter, st, false) := by
  simp [lookup_or_add_filter]

/-- C3: over the lifetime of each cache (any sequence of lookups starting
from the empty cache), each distinct key (numeric filter id for
`lookup_or_add_filter`, SID value for `lookup_or_add_SID`, both compared
by value) triggers at most one resolution attempt, and all lookups of the
same key return the same entry: the first miss inserts the result
(successful name or negative `"?"`/raw-string result) and every later
lookup is served from the cache. -/
theorem cache_at_most_one_resolution {ρ ρ' : Type}
    (resolveF : ρ → Nat → Option String × ρ) (r0 : ρ) (ks : List Nat) (k : Nat)
    (resolveS : ρ' → Nat → SID_info × ρ') (s0 : ρ') (ks' : List Nat) (k' : Nat) :
    ((runFilterLookups resolveF (r0, []) ks).countP (fun t => t.1 == k && t.2.2) ≤ 1 ∧
      ∀ t1 ∈ runFilterLookups resolveF (r0, []) ks,
        ∀ t2 ∈ runFilterLookups resolveF (r0, []) ks,
          t1.1 = k → t2.1 = k → t1.2.1 = t2.2.1) ∧
    ((runSIDLookups resolveS (s0, []) ks').countP (fun t => t.1 == k' && t.2.2) ≤ 1 ∧
      ∀ t1 ∈ runSIDLookups resolveS (s0, []) ks',
        ∀ t2 ∈ runSIDLookups resolveS (s0, []) ks',
          t1.1 = k' → t2.1 = k' → t1.2.1 = t2.2.1) := by
  refine ⟨?_, runSIDLookups_spec_of_none resolveS ks' (s0, []) rfl⟩
  by_cases hk : k = 0
  · subst hk
    constructor
    · have h0 := @countP_eq_zero_of_entries 0
        (runFilterLookups resolveF (r0, []) ks)
        (fun t ht htk => (runFilterLookups_zero_key resolveF ks (r0, []) t ht htk).2)
      omega
    · intro t1 ht1 t2 ht2 h1 h2
      rw [(runFilterLookups_zero_key resolveF ks (r0, []) t1 ht1 h1).1,
          (runFilterLookups_zero_key resolveF ks (r0, []) t2 ht2 h2).1]
  · exact runFilterLookups_spec_of_none resolveF hk ks (r0, []) rfl

/-- C3 witness: a concrete repeated-lookup run on each cache (keys 5, 5,
0 for the filter cache, 7, 7 for the SID cache): at most one resolution
attempt is made for the repeated key. -/
theorem cache_at_most_one_resolution_witness :
    (runFilterLookups (fun (_ : Unit) (_ : Nat) => (some "DemoFilterRule", ()))
        ((), []) [5, 5, 0]).countP (fun t => t.1 == 5 && t.2.2) ≤ 1 ∧
    (runSIDLookups (fun (_ : Unit) (_ : Nat) =>
        ({ sid_str := some "S-1-5-21-1", account := "alice", domain := "DOM" }, ()))
        ((), []) [7, 7]).countP (fun t => t.1 == 7 && t.2.2) ≤ 1 :=
  ⟨(cache_at_most_one_resolution (fun (_ : Unit) (_ : Nat) => (some "DemoFilterRule", ()))
      () [5, 5, 0] 5
      (fun (_ : Unit) (_ : Nat) =>
        ({ sid_str := some "S-1-5-21-1", account := "alice", domain := "DOM" }, ()))
      () [7, 7] 7).1.1,
   (cache_at_most_one_resolution (fun (_ : Unit) (_ : Nat) => (some "DemoFilterRule", ()))
      () [5, 5, 0] 5
      (fun (_ : Unit) (_ : Nat) =>
        ({ sid_str := some "S-1-5-21-1", account := "alice", domain := "DOM" }, ()))
      () [7, 7] 7).2.1⟩

/-! ## Negotiation lemmas -/

section NegotiationLemmas

variable (present : Nat → Bool) (subscribe : Nat → Nat)

lemma set_api_callback_gt {l : Int} {n : Nat} (h : l < (n : Int)) (e : Nat) :
    set_api_callback l present subscribe n e = (none, e) := by
  have h1 : ¬ l = (n : Int) := by omega
  have h2 : ¬ l ≥ (n : Int) := by omega
  simp [set_api_callback, h1, h2]

lemma set_api_callback_eq_ok {l : Int} {n : Nat} (hl : l = (n : Int))
    (hp : present n = true) (hs : subscribe n = ERROR_SUCCESS) (e : Nat) :
    set_api_callback l present subscribe n e
      = (some (SubscribeOutcome.ok n), ERROR_SUCCESS) := by
  simp [set_api_callback, hl, hp, hs]

lemma set_api_callback_eq_fail {l : Int} {n : Nat} (hl : l = (n : Int))
    (hp : present n = true) (hs : subscribe n ≠ ERROR_SUCCESS) (e : Nat) :
    set_api_callback l present subscribe n e = (none, subscribe n) := by
  simp [set_api_callback, hl, hp, hs]

lemma set_api_callback_absent {l : Int} {n : Nat} (hl : l ≥ (n : Int))
    (hp : present n = false) (e : Nat) :
    set_api_callback l present subscribe n e
      = (some (SubscribeOutcome.fail ERROR_BAD_COMMAND), ERROR_BAD_COMMAND) := by
  simp [set_api_callback, hl, hp]

lemma set_api_callback_lt_present {l : Int} {n : Nat} (hl : (n : Int) < l)
    (hp : present n = true) (e : Nat) :
    set_api_callback l present subscribe n e = (none, e) := by
  have h1 : ¬ l = (n : Int) := by omega
  simp [set_api_callback, h1, hp]

lemma set_api_callback_ok_elim {l : Int} {n m : Nat} {e e' : Nat}
    (h : set_api_callback l present subscribe n e = (some (SubscribeOutcome.ok m), e')) :
    l = (n : Int) ∧ m = n ∧ present n = true ∧ subscribe n = ERROR_SUCCESS := by
  by_cases hl : l = (n : Int)
  · by_cases hp : present n = true
    · by_cases hs : subscribe n = ERROR_SUCCESS
      · rw [set_api_callback_eq_ok present subscribe hl hp hs e] at h
        simp only [Prod.mk.injEq, Option.some.injEq, SubscribeOutcome.ok.injEq] at h
        exact ⟨hl, h.1.symm, hp, hs⟩
      · rw [set_api_callback_eq_fail present subscribe hl hp hs e] at h
        simp at h
    · have hp' : present n = false := by simpa using hp
      rw [set_api_callback_absent present subscribe (le_of_eq hl.symm) hp' e] at h
      simp at h
  · by_cases hge : l ≥ (n : Int)
    · by_cases hp : present n = true
      · rw [set_api_callback_lt_present present subscribe (by omega) hp e] at h
        simp at h
      · have hp' : present n = false := by simpa using hp
        rw [set_api_callback_absent present subscribe hge hp' e] at h
        simp at h
    · rw [set_api_callback_gt present subscribe (by omega) e] at h
      simp at h

end NegotiationLemmas

/-- C1 counterexample: with only the level-0 entry point available (and
every subscribe call succeeding), negotiation configured at HIGH = 4 does
not fall back to level 0 as the claim states: `fw_monitor_subscribe`
aborts with `ERROR_BAD_COMMAND` as soon as it sees that the level-4 entry
point is missing. -/
theorem c1_descent_counterexample :
    fw_monitor_subscribe 4 (fun n => n == 0) (fun _ => ERROR_SUCCESS) ERROR_SUCCESS
        = SubscribeOutcome.fail ERROR_BAD_COMMAND ∧
    fw_monitor_subscribe 4 (fun n => n == 0) (fun _ => ERROR_SUCCESS) ERROR_SUCCESS
        ≠ SubscribeOutcome.ok 0 := by
  constructor
  · decide
  · decide

/-- C1 (amended): negotiation succeeds exactly at the configured API
level: `fw_monitor_subscribe` returns `ok n` iff `n` is the configured
level `fw_api`, that level is within `[FW_API_LOW, FW_API_HIGH]`, its
entry point is present, and its subscribe call returns `ERROR_SUCCESS`.
In particular, with entry points `{4, 2, 0}` available and their calls
succeeding, a session configured at HIGH = 4 selects level 4; with only
level 0 available and the level configured at 4, negotiation fails (see
the counterexample); with no entry point available it fails with the last
error observed (`ERROR_BAD_COMMAND` from the availability check). -/
theorem fw_monitor_subscribe_ok_iff (l : Int) (present : Nat → Bool)
    (subscribe : Nat → Nat) (e0 : Nat) (n : Nat) :
    fw_monitor_subscribe l present subscribe e0 = SubscribeOutcome.ok n ↔
      l = (n : Int) ∧ n ≤ 4 ∧ present n = true ∧ subscribe n = ERROR_SUCCESS := by
  constructor
  · intro h
    unfold fw_monitor_subscribe at h
    by_cases hb : l < FW_API_LOW ∨ l > FW_API_HIGH
    · rw [if_pos hb] at h
      simp at h
    · rw [if_neg hb] at h
      cases h4 : set_api_callback l present subscribe 4 e0 with
      | mk o4 e4 =>
        rw [h4] at h
        cases o4 with
        | some r =>
          dsimp only at h
          subst h
          obtain ⟨hl, hmn, hp, hs⟩ := set_api_callback_ok_elim present subscribe h4
          subst hmn
          exact ⟨hl, by omega, hp, hs⟩
        | none =>
          dsimp only at h
          cases h3 : set_api_callback l present subscribe 3 e4 with
          | mk o3 e3 =>
            rw [h3] at h
            cases o3 with
            | some r =>
              dsimp only at h
              subst h
              obtain ⟨hl, hmn, hp, hs⟩ := set_api_callback_ok_elim present subscribe h3
              subst hmn
              exact ⟨hl, by omega, hp, hs⟩
            | none =>
              dsimp only at h
              cases h2 : set_api_callback l present subscribe 2 e3 with
              | mk o2 e2 =>
                rw [h2] at h
                cases o2 with
                | some r =>
                  dsimp only at h
                  subst h
                  obtain ⟨hl, hmn, hp, hs⟩ := set_api_callback_ok_elim present subscribe h2
                  subst hmn
                  exact ⟨hl, by omega, hp, hs⟩
                | none =>
                  dsimp only at h
                  cases h1 : set_api_callback l present subscribe 1 e2 with
                  | mk o1 e1 =>
                    rw [h1] at h
                    cases o1 with
                    | some r =>
                      dsimp only at h
                      subst h
                      obtain ⟨hl, hmn, hp, hs⟩ := set_api_callback_ok_elim present subscribe h1
                      subst hmn
                      exact ⟨hl, by omega, hp, hs⟩
                    | none =>
                      dsimp only at h
                      cases h0 : set_api_callback l present subscribe 0 e1 with
                      | mk o0 ee0 =>
                        rw [h0] at h
                        cases o0 with
                        | some r =>
                          dsimp only at h
                          subst h
                          obtain ⟨hl, hmn, hp, hs⟩ :=
                            set_api_callback_ok_elim present subscribe h0
                          subst hmn
                          exact ⟨hl, by omega, hp, hs⟩
                        | none =>
                          dsimp only at h
                          simp at h
  · rintro ⟨hl, hn4, hp, hs⟩
    subst hl
    unfold fw_monitor_subscribe
    rw [if_neg (by simp only [FW_API_LOW, FW_API_HIGH]; omega)]
    interval_cases n
    · rw [set_api_callback_gt present subscribe (by omega) e0]
      dsimp only
      rw [set_api_callback_gt present subscribe (by omega) e0]
      dsimp only
      rw [set_api_callback_gt present subscribe (by omega) e0]
      dsimp only
      rw [set_api_callback_gt present subscribe (by omega) e0]
      dsimp only
      rw [set_api_callback_eq_ok present subscribe (by omega) hp hs e0]
    · rw [set_api_callback_gt present subscribe (by omega) e0]
      dsimp only
      rw [set_api_callback_gt present subscribe (by omega) e0]
      dsimp only
      rw [set_api_callback_gt present subscribe (by omega) e0]
      dsimp only
      rw [set_api_callback_eq_ok present subscribe (by omega) hp hs e0]
    · rw [set_api_callback_gt present subscribe (by omega) e0]
      dsimp only
      rw [set_api_callback_gt present subscribe (by omega) e0]
      dsimp only
      rw [set_api_callback_eq_ok present subscribe (by omega) hp hs e0]
    · rw [set_api_callback_gt present subscribe (by omega) e0]
      dsimp only
      rw [set_api_callback_eq_ok present subscribe (by omega) hp hs e0]
    · rw [set_api_callback_eq_ok present subscribe (by omega) hp hs e0]

/-- C1 witness: the claim's first scenario — entry points `{4, 2, 0}`
available, all subscribe calls succeeding, configured level HIGH = 4 —
selects level 4. -/
theorem fw_monitor_subscribe_ok_iff_witness :
    fw_monitor_subscribe 4 (fun n => n == 4 || n == 2 || n == 0)
        (fun _ => ERROR_SUCCESS) ERROR_SUCCESS = SubscribeOutcome.ok 4 :=
  (fw_monitor_subscribe_ok_iff 4 (fun n => n == 4 || n == 2 || n == 0)
      (fun _ => ERROR_SUCCESS) ERROR_SUCCESS 4).mpr
    ⟨rfl, by decide, by decide, by decide⟩

end Firewall

namespace Firewall

/-! ## Callback lemmas -/

section CallbackLemmas

variable (env : FwEnv) (st : FwState)

lemma fw_event_callback_gate (ev : FwEvent) (h : ip_version_gate env ev.header = true) :
    fw_event_callback env st ev
      = ({ st with fw_num_ignored := st.fw_num_ignored + 1 }, CallbackResult.ignored) := by
  unfold fw_event_callback
  simp [h]

lemma fw_event_tail_reject (direction_in : Bool) (fl : List filter_entry)
    (header : EventHeader)
    (hprog : print_app_id env header = false)
    (huser : (print_user_id env st.fw_SID_list header).1 = false)
    (hpkg : (print_package_id env (print_user_id env st.fw_SID_list header).2 header).1
              = false) :
    fw_event_tail env st direction_in fl header
      = ({ fw_num_events := st.fw_num_events, fw_num_ignored := st.fw_num_ignored + 1,
           fw_filter_list := fl,
           fw_SID_list :=
             (print_package_id env (print_user_id env st.fw_SID_list header).2 header).2 },
         CallbackResult.ignored) := by
  unfold fw_event_tail
  simp [hprog, huser, hpkg]

lemma fw_event_tail_accept (direction_in : Bool) (fl : List filter_entry)
    (header : EventHeader)
    (h : print_app_id env header = true ∨
         (print_user_id env st.fw_SID_list header).1 = true ∨
         (print_package_id env (print_user_id env st.fw_SID_list header).2 header).1
           = true) :
    (fw_event_tail env st direction_in fl header).2 = CallbackResult.emitted ∧
    (fw_event_tail env st direction_in fl header).1.fw_num_events = st.fw_num_events + 1 ∧
    (fw_event_tail env st direction_in fl header).1.fw_num_ignored = st.fw_num_ignored := by
  unfold fw_event_tail
  rcases h with h | h | h <;> simp [h]

lemma fw_event_tail_one_counter (direction_in : Bool) (fl : List filter_entry)
    (header : EventHeader) :
    ((fw_event_tail env st direction_in fl header).1.fw_num_events = st.fw_num_events + 1 ∧
     (fw_event_tail env st direction_in fl header).1.fw_num_ignored = st.fw_num_ignored) ∨
    ((fw_event_tail env st direction_in fl header).1.fw_num_events = st.fw_num_events ∧
     (fw_event_tail env st direction_in fl header).1.fw_num_ignored
       = st.fw_num_ignored + 1) := by
  unfold fw_event_tail
  dsimp only
  split
  · left; exact ⟨rfl, rfl⟩
  · right; exact ⟨rfl, rfl⟩

lemma fw_event_callback_eq_tail (ev : FwEvent)
    (hg : ip_version_gate env ev.header = false)
    (hd : decoded_kind ev.payload = true) :
    ∃ direction_in fl,
      fw_event_callback env st ev = fw_event_tail env st direction_in fl ev.header := by
  unfold fw_event_callback
  simp only [hg, Bool.false_eq_true, if_false]
  cases hp : ev.payload with
  | classifyDrop d => exact ⟨_, _, rfl⟩
  | classifyAllow a => exact ⟨_, _, rfl⟩
  | capabilityDrop c => exact ⟨_, _, rfl⟩
  | capabilityAllow c => exact ⟨_, _, rfl⟩
  | other ty => rw [hp] at hd; simp [decoded_kind] at hd

lemma print_app_id_false_of (header : EventHeader) {a_name : String}
    (hsa : env.cfg.show_all = false)
    (hflag : header.flags &&& FWPM_NET_EVENT_FLAG_APP_ID_SET ≠ 0)
    (happ : header.appIdName = some a_name)
    (hm1 : stricmp_eq env.fw_module a_name = false)
    (hm2 : stricmp_eq env.fw_module (env.basenameOf a_name) = false) :
    print_app_id env header = false := by
  unfold print_app_id
  rw [happ]
  simp [hflag, hsa, hm1, hm2]

lemma print_user_id_false_of (sidList : List SID_entry) (header : EventHeader) {usid : Nat}
    (hsu : env.cfg.show_user = true)
    (hflag : header.flags &&& FWPM_NET_EVENT_FLAG_USER_ID_SET ≠ 0)
    (huid : header.userId = some usid)
    (hacct : stricmp_eq
        (lookup_or_add_SID (pureSidResolver env) ((), sidList) usid).1.account
        env.fw_logged_on_user = true) :
    (print_user_id env sidList header).1 = false := by
  unfold print_user_id
  rw [huid]
  simp [hflag, hsu, hacct]

lemma print_package_id_false_of (sidList : List SID_entry) (header : EventHeader)
    {psid : Nat}
    (hsa : env.cfg.show_all = false)
    (hflag : header.flags &&& FWPM_NET_EVENT_FLAG_PACKAGE_ID_SET ≠ 0)
    (hpsid : header.packageSid = some psid)
    (hstr : (lookup_or_add_SID (pureSidResolver env) ((), sidList) psid).1.sid_str = none ∨
            (lookup_or_add_SID (pureSidResolver env) ((), sidList) psid).1.sid_str
              = some NULL_SID) :
    (print_package_id env sidList header).1 = false := by
  unfold print_package_id
  rw [hpsid]
  rcases hstr with hstr | hstr <;> simp [hflag, hstr, hsa]

end CallbackLemmas

end Firewall

namespace Firewall

/-- C4: an event whose `ip_version` is marked present and whose IP family
is disabled by the visibility configuration is counted as ignored by the
gate at the top of `fw_event_callback`, before any normalization, cache
lookup, or emission: the result state is the input state with only
`fw_num_ignored` incremented — `fw_num_events` and both caches are
unchanged. -/
theorem fw_event_callback_ip_gate_effect (env : FwEnv) (st : FwState) (ev : FwEvent)
    (h : ip_version_gate env ev.header = true) :
    fw_event_callback env st ev
      = ({ st with fw_num_ignored := st.fw_num_ignored + 1 }, CallbackResult.ignored) ∧
    (fw_event_callback env st ev).1.fw_num_events = st.fw_num_events ∧
    (fw_event_callback env st ev).1.fw_filter_list = st.fw_filter_list ∧
    (fw_event_callback env st ev).1.fw_SID_list = st.fw_SID_list ∧
    (fw_event_callback env st ev).1.fw_num_ignored = st.fw_num_ignored + 1 := by
  have hc := fw_event_callback_gate env st ev h
  exact ⟨hc, by rw [hc], by rw [hc], by rw [hc], by rw [hc]⟩

/-- C4 witness: an IPv6 `CLASSIFY_ALLOW` event delivered while
`show_ipv6 = false`. -/
theorem fw_event_callback_ip_gate_effect_witness :
    fw_event_callback envV6Off fw_state0 evV6Allow
      = ({ fw_state0 with fw_num_ignored := fw_state0.fw_num_ignored + 1 },
         CallbackResult.ignored) ∧
    (fw_event_callback envV6Off fw_state0 evV6Allow).1.fw_num_events
      = fw_state0.fw_num_events ∧
    (fw_event_callback envV6Off fw_state0 evV6Allow).1.fw_filter_list
      = fw_state0.fw_filter_list ∧
    (fw_event_callback envV6Off fw_state0 evV6Allow).1.fw_SID_list
      = fw_state0.fw_SID_list ∧
    (fw_event_callback envV6Off fw_state0 evV6Allow).1.fw_num_ignored
      = fw_state0.fw_num_ignored + 1 :=
  fw_event_callback_ip_gate_effect envV6Off fw_state0 evV6Allow (by decide)

/-- C5: the direction decode of the Classify branches: the recognised
inbound codes (`FWP_DIRECTION_IN` = 0x3900, `FWP_DIRECTION_INBOUND` = 1)
decode to inbound, the recognised outbound codes (`FWP_DIRECTION_OUT` =
0x3901, `FWP_DIRECTION_OUTBOUND` = 0) decode to outbound, and every
unrecognised code defaults to inbound. -/
theorem classify_direction_spec (ms : Nat) :
    ((ms = FWP_DIRECTION_IN ∨ ms = FWP_DIRECTION_INBOUND) →
        classify_direction_in ms = true) ∧
    ((ms = FWP_DIRECTION_OUT ∨ ms = FWP_DIRECTION_OUTBOUND) →
        classify_direction_in ms = false) ∧
    ((ms ≠ FWP_DIRECTION_IN ∧ ms ≠ FWP_DIRECTION_INBOUND ∧
      ms ≠ FWP_DIRECTION_OUT ∧ ms ≠ FWP_DIRECTION_OUTBOUND) →
        classify_direction_in ms = true) := by
  refine ⟨?_, ?_, ?_⟩
  · rintro (rfl | rfl) <;> decide
  · rintro (rfl | rfl) <;> decide
  · rintro ⟨h1, h2, h3, h4⟩
    simp [classify_direction_in, h1, h2, h3, h4]

/-- C5 witness: one recognised inbound code, one recognised outbound
code, and one unrecognised code. -/
theorem classify_direction_spec_witness :
    classify_direction_in 0x3900 = true ∧
    classify_direction_in 0 = false ∧
    classify_direction_in 7 = true :=
  ⟨(classify_direction_spec 0x3900).1 (Or.inl rfl),
   (classify_direction_spec 0).2.1 (Or.inr rfl),
   (classify_direction_spec 7).2.2 (by decide)⟩

/-- C2 counterexample: with `show_all = true` but `show_ipv4 = false`, an
IPv4-marked event is ignored, not accepted — `show_all` does not override
the IP-family gate, so the claim's "always Accept for any configuration
with `show_all = true`" fails. -/
theorem c2_show_all_counterexample :
    envShowAllV4Off.cfg.show_all = true ∧
    (fw_event_callback envShowAllV4Off fw_state0 evV4Drop).2 = CallbackResult.ignored ∧
    (fw_event_callback envShowAllV4Off fw_state0 evV4Drop).1.fw_num_ignored
      = fw_state0.fw_num_ignored + 1 := by
  refine ⟨rfl, ?_, ?_⟩ <;> decide

/-- C2 (amended): with `show_all = true`, a decoded event whose IP family
is enabled is accepted whenever at least one of the program, user, or
package components accepts it (the address exclusion list never decides
acceptance).  `show_all = true` alone is not sufficient: the IP-family
gate still applies (see the counterexample), `show_user` self-suppression
and the program exclusion list still run under `show_all`, so an event
all of whose components reject is still ignored. -/
theorem fw_event_callback_show_all_accepts (env : FwEnv) (st : FwState) (ev : FwEvent)
    (hall : env.cfg.show_all = true)
    (hg : ip_version_gate env ev.header = false)
    (hd : decoded_kind ev.payload = true)
    (hcomp : print_app_id env ev.header = true ∨
             (print_user_id env st.fw_SID_list ev.header).1 = true ∨
             (print_package_id env (print_user_id env st.fw_SID_list ev.header).2
                ev.header).1 = true) :
    (fw_event_callback env st ev).2 = CallbackResult.emitted ∧
    (fw_event_callback env st ev).1.fw_num_events = st.fw_num_events + 1 ∧
    (fw_event_callback env st ev).1.fw_num_ignored = st.fw_num_ignored := by
  obtain ⟨direction_in, fl, heq⟩ := fw_event_callback_eq_tail env st ev hg hd
  rw [heq]
  exact fw_event_tail_accept env st direction_in fl ev.header hcomp

/-- C2 witness: `show_all = true`, both families enabled, an IPv4
`CLASSIFY_DROP` event with no app id (its program component accepts). -/
theorem fw_event_callback_show_all_accepts_witness :
    (fw_event_callback demoEnv fw_state0 evV4Drop).2 = CallbackResult.emitted ∧
    (fw_event_callback demoEnv fw_state0 evV4Drop).1.fw_num_events
      = fw_state0.fw_num_events + 1 ∧
    (fw_event_callback demoEnv fw_state0 evV4Drop).1.fw_num_ignored
      = fw_state0.fw_num_ignored :=
  fw_event_callback_show_all_accepts demoEnv fw_state0 evV4Drop rfl (by decide)
    (by decide) (Or.inl (by decide))

/-- C6 counterexample: an event whose user id resolves to the logged-on
user, with `show_user = true` and `show_all = false`, is nevertheless
emitted when its app id and package sid are absent: the absent program
and package components count as printable and the final disjunction
accepts the event. -/
theorem c6_self_suppression_counterexample :
    envSelfSuppress.cfg.show_user = true ∧
    envSelfSuppress.cfg.show_all = false ∧
    stricmp_eq
      (lookup_or_add_SID (pureSidResolver envSelfSuppress)
        ((), fw_state0.fw_SID_list) 42).1.account
      envSelfSuppress.fw_logged_on_user = true ∧
    (fw_event_callback envSelfSuppress fw_state0 evUserOnly).2
      = CallbackResult.emitted ∧
    (fw_event_callback envSelfSuppress fw_state0 evUserOnly).1.fw_num_events
      = fw_state0.fw_num_events + 1 := by
  refine ⟨rfl, rfl, ?_, ?_, ?_⟩ <;> decide

/-- C6 (amended): an event whose resolved user account equals the
configured logged-on user, with `show_user = true` and `show_all =
false`, is rejected (counted as ignored) provided no other component
accepts it: its app id is present and matches the monitored module under
neither full name nor basename, and its package sid is present with an
unconverted (`NULL`) or null (`S-1-0-0`) SID string. -/
theorem fw_event_callback_self_suppression (env : FwEnv) (st : FwState) (ev : FwEvent)
    (usid psid : Nat) (a_name : String)
    (hsu : env.cfg.show_user = true)
    (hsa : env.cfg.show_all = false)
    (huflag : ev.header.flags &&& FWPM_NET_EVENT_FLAG_USER_ID_SET ≠ 0)
    (huid : ev.header.userId = some usid)
    (hacct : stricmp_eq
        (lookup_or_add_SID (pureSidResolver env) ((), st.fw_SID_list) usid).1.account
        env.fw_logged_on_user = true)
    (haflag : ev.header.flags &&& FWPM_NET_EVENT_FLAG_APP_ID_SET ≠ 0)
    (happ : ev.header.appIdName = some a_name)
    (hm1 : stricmp_eq env.fw_module a_name = false)
    (hm2 : stricmp_eq env.fw_module (env.basenameOf a_name) = false)
    (hpflag : ev.header.flags &&& FWPM_NET_EVENT_FLAG_PACKAGE_ID_SET ≠ 0)
    (hpsid : ev.header.packageSid = some psid)
    (hpstr : (lookup_or_add_SID (pureSidResolver env)
                ((), (print_user_id env st.fw_SID_list ev.header).2) psid).1.sid_str
                = none ∨
             (lookup_or_add_SID (pureSidResolver env)
                ((), (print_user_id env st.fw_SID_list ev.header).2) psid).1.sid_str
                = some NULL_SID)
    (hd : decoded_kind ev.payload = true) :
    (fw_event_callback env st ev).2 = CallbackResult.ignored ∧
    (fw_event_callback env st ev).1.fw_num_events = st.fw_num_events ∧
    (fw_event_callback env st ev).1.fw_num_ignored = st.fw_num_ignored + 1 := by
  by_cases hg : ip_version_gate env ev.header = true
  · have hc := fw_event_callback_gate env st ev hg
    rw [hc]
    exact ⟨rfl, rfl, rfl⟩
  · have hg' : ip_version_gate env ev.header = false := by simpa using hg
    obtain ⟨direction_in, fl, heq⟩ := fw_event_callback_eq_tail env st ev hg' hd
    have hprog := print_app_id_false_of env ev.header hsa haflag happ hm1 hm2
    have huser := print_user_id_false_of env st.fw_SID_list ev.header hsu huflag huid hacct
    have hpkg := print_package_id_false_of env
      (print_user_id env st.fw_SID_list ev.header).2 ev.header hsa hpflag hpsid hpstr
    rw [heq, fw_event_tail_reject env st direction_in fl ev.header hprog huser hpkg]
    exact ⟨rfl, rfl, rfl⟩

/-- C6 witness: logged-on user `alice`, `show_user = true`, `show_all =
false`, an app id that is not the monitored module, and a package sid
whose string is the null SID. -/
theorem fw_event_callback_self_suppression_witness :
    (fw_event_callback envSelfSuppress fw_state0 evUserAppPkg).2
      = CallbackResult.ignored ∧
    (fw_event_callback envSelfSuppress fw_state0 evUserAppPkg).1.fw_num_events
      = fw_state0.fw_num_events ∧
    (fw_event_callback envSelfSuppress fw_state0 evUserAppPkg).1.fw_num_ignored
      = fw_state0.fw_num_ignored + 1 :=
  fw_event_callback_self_suppression envSelfSuppress fw_state0 evUserAppPkg
    42 99 "c:\\apps\\other.exe" rfl rfl (by decide) (by decide) (by decide)
    (by decide) (by decide) (by decide) (by decide) (by decide) (by decide)
    (Or.inr (by decide)) (by decide)

/-- C7 counterexample: an event whose program component rejects (excluded
program) and whose user component rejects (self-suppressed logged-on
user) is still accepted through its printable package sid, refuting "an
event with neither a resolvable program nor a resolvable user identity is
never accepted". -/
theorem c7_component_counterexample :
    print_app_id envAllUser evExclProgPkg.header = false ∧
    (print_user_id envAllUser fw_state0.fw_SID_list evExclProgPkg.header).1 = false ∧
    (fw_event_callback envAllUser fw_state0 evExclProgPkg).2
      = CallbackResult.emitted ∧
    (fw_event_callback envAllUser fw_state0 evExclProgPkg).1.fw_num_events
      = fw_state0.fw_num_events + 1 := by
  refine ⟨?_, ?_, ?_, ?_⟩ <;> decide

/-- C7 (amended): a decoded event none of whose three components —
program (app id), user identity, package identity — is printable is never
accepted: it is discarded and counted as ignored. -/
theorem fw_event_callback_no_component_ignored (env : FwEnv) (st : FwState) (ev : FwEvent)
    (hprog : print_app_id env ev.header = false)
    (huser : (print_user_id env st.fw_SID_list ev.header).1 = false)
    (hpkg : (print_package_id env (print_user_id env st.fw_SID_list ev.header).2
               ev.header).1 = false)
    (hd : decoded_kind ev.payload = true) :
    (fw_event_callback env st ev).2 = CallbackResult.ignored ∧
    (fw_event_callback env st ev).1.fw_num_events = st.fw_num_events ∧
    (fw_event_callback env st ev).1.fw_num_ignored = st.fw_num_ignored + 1 := by
  by_cases hg : ip_version_gate env ev.header = true
  · have hc := fw_event_callback_gate env st ev hg
    rw [hc]
    exact ⟨rfl, rfl, rfl⟩
  · have hg' : ip_version_gate env ev.header = false := by simpa using hg
    obtain ⟨direction_in, fl, heq⟩ := fw_event_callback_eq_tail env st ev hg' hd
    rw [heq, fw_event_tail_reject env st direction_in fl ev.header hprog huser hpkg]
    exact ⟨rfl, rfl, rfl⟩

/-- C7 witness: all three components reject (program not the monitored
module under `show_all = false`, self-suppressed user, null package SID):
the event is ignored. -/
theorem fw_event_callback_no_component_ignored_witness :
    (fw_event_callback envSelfSuppress fw_state0 evUserAppPkg).2
      = CallbackResult.ignored ∧
    (fw_event_callback envSelfSuppress fw_state0 evUserAppPkg).1.fw_num_events
      = fw_state0.fw_num_events ∧
    (fw_event_callback envSelfSuppress fw_state0 evUserAppPkg).1.fw_num_ignored
      = fw_state0.fw_num_ignored + 1 :=
  fw_event_callback_no_component_ignored envSelfSuppress fw_state0 evUserAppPkg
    (by decide) (by decide) (by decide) (by decide)

/-- C10 counterexample: an `IKEEXT_MM_FAILURE` event (not one of the four
decoded kinds) marked IPv6 while `show_ipv6 = false` increments the
ignored counter: the IP-version gate applies before the kind dispatch, so
non-decoded kinds do not always leave the counters unchanged. -/
theorem c10_other_kind_counterexample :
    decoded_kind evOtherV6.payload = false ∧
    (fw_event_callback envV6Off fw_state0 evOtherV6).1.fw_num_ignored
      = fw_state0.fw_num_ignored + 1 ∧
    (fw_event_callback envV6Off fw_state0 evOtherV6).1.fw_num_events
      = fw_state0.fw_num_events := by
  refine ⟨rfl, ?_, ?_⟩ <;> decide

/-- C10 (amended): a decoded-kind invocation increments exactly one of
the two counters by exactly one; a non-decoded-kind invocation leaves
both counters unchanged unless the IP-version gate rejects it first, in
which case only the ignored counter is incremented (the gate runs before
the kind dispatch and applies to every kind). -/
theorem fw_event_callback_counter_discipline (env : FwEnv) (st : FwState) (ev : FwEvent) :
    (decoded_kind ev.payload = true →
      ((fw_event_callback env st ev).1.fw_num_events = st.fw_num_events + 1 ∧
       (fw_event_callback env st ev).1.fw_num_ignored = st.fw_num_ignored) ∨
      ((fw_event_callback env st ev).1.fw_num_events = st.fw_num_events ∧
       (fw_event_callback env st ev).1.fw_num_ignored = st.fw_num_ignored + 1)) ∧
    (decoded_kind ev.payload = false →
      (ip_version_gate env ev.header = true →
        (fw_event_callback env st ev).1.fw_num_events = st.fw_num_events ∧
        (fw_event_callback env st ev).1.fw_num_ignored = st.fw_num_ignored + 1) ∧
      (ip_version_gate env ev.header = false →
        (fw_event_callback env st ev).1 = st ∧
        (fw_event_callback env st ev).2 = CallbackResult.skipped)) := by
  constructor
  · intro hd
    by_cases hg : ip_version_gate env ev.header = true
    · right
      rw [fw_event_callback_gate env st ev hg]
      exact ⟨rfl, rfl⟩
    · have hg' : ip_version_gate env ev.header = false := by simpa using hg
      obtain ⟨direction_in, fl, heq⟩ := fw_event_callback_eq_tail env st ev hg' hd
      rw [heq]
      exact fw_event_tail_one_counter env st direction_in fl ev.header
  · intro hd
    constructor
    · intro hg
      rw [fw_event_callback_gate env st ev hg]
      exact ⟨rfl, rfl⟩
    · intro hg
      cases hp : ev.payload with
      | classifyDrop d => rw [hp] at hd; simp [decoded_kind] at hd
      | classifyAllow a => rw [hp] at hd; simp [decoded_kind] at hd
      | capabilityDrop c => rw [hp] at hd; simp [decoded_kind] at hd
      | capabilityAllow c => rw [hp] at hd; simp [decoded_kind] at hd
      | other ty =>
        unfold fw_event_callback
        simp [hg, hp]

/-- C10 witness: one decoded event (emitted, so the emitted counter moves
by one), one non-decoded event caught by the gate (ignored moves by one),
and one non-decoded event left completely untouched. -/
theorem fw_event_callback_counter_discipline_witness :
    (((fw_event_callback demoEnv fw_state0 evV4Drop).1.fw_num_events
        = fw_state0.fw_num_events + 1 ∧
      (fw_event_callback demoEnv fw_state0 evV4Drop).1.fw_num_ignored
        = fw_state0.fw_num_ignored) ∨
     ((fw_event_callback demoEnv fw_state0 evV4Drop).1.fw_num_events
        = fw_state0.fw_num_events ∧
      (fw_event_callback demoEnv fw_state0 evV4Drop).1.fw_num_ignored
        = fw_state0.fw_num_ignored + 1)) ∧
    ((fw_event_callback envV6Off fw_state0 evOtherV6).1.fw_num_events
        = fw_state0.fw_num_events ∧
     (fw_event_callback envV6Off fw_state0 evOtherV6).1.fw_num_ignored
        = fw_state0.fw_num_ignored + 1) ∧
    ((fw_event_callback demoEnv fw_state0 evOtherPlain).1 = fw_state0 ∧
     (fw_event_callback demoEnv fw_state0 evOtherPlain).2 = CallbackResult.skipped) :=
  ⟨(fw_event_callback_counter_discipline demoEnv fw_state0 evV4Drop).1 rfl,
   ((fw_event_callback_counter_discipline envV6Off fw_state0 evOtherV6).2 rfl).1
     (by decide),
   ((fw_event_callback_counter_discipline demoEnv fw_state0 evOtherPlain).2 rfl).2
     (by decide)⟩

/-- C8: rule enumeration never drops a rule because of its status: when
the engine call succeeds, every rule of the returned batch — whatever its
status code, including the whole error superclass — appears in the dumped
output, in order; and any status code in the semantic-error numeric range
`[0x00100000, 0x00110000)` falls in the semantic-error coarse class,
which lies inside the error superclass mask. -/
theorem fw_enumerate_rules_never_drops (rules : List FW_RULE) (s : Nat)
    (h1 : FW_RULE_STATUS_CLASS_SEMANTIC_ERROR ≤ s) (h2 : s < 0x00110000) :
    (fw_enumerate_rules (some (rules.length, rules))).2 = rules.map fw_dump_rule ∧
    (∀ r ∈ rules, fw_dump_rule r ∈ (fw_enumerate_rules (some (rules.length, rules))).2) ∧
    fw_rule_status_class s = FW_RULE_STATUS_CLASS_SEMANTIC_ERROR ∧
    fw_rule_status_class s &&& FW_RULE_STATUS_ERROR ≠ 0 := by
  have hout : (fw_enumerate_rules (some (rules.length, rules))).2
      = rules.map fw_dump_rule := by
    simp [fw_enumerate_rules]
  have hclass : fw_rule_status_class s = FW_RULE_STATUS_CLASS_SEMANTIC_ERROR := by
    unfold fw_rule_status_class FW_RULE_STATUS_CLASS_SEMANTIC_ERROR
    unfold FW_RULE_STATUS_CLASS_SEMANTIC_ERROR at h1
    omega
  refine ⟨hout, ?_, hclass, ?_⟩
  · intro r hr
    rw [hout]
    exact List.mem_map_of_mem fw_dump_rule hr
  · rw [hclass]
    decide

/-- C8 witness: a two-rule batch, one rule healthy and one carrying the
semantic-error status `FW_RULE_STATUS_SEMANTIC_ERROR_PORTS = 0x00100020`;
both are dumped and the status classifies as a semantic error. -/
theorem fw_enumerate_rules_never_drops_witness :
    (fw_enumerate_rules (some ([demoRuleOk, demoRuleSemErr].length,
        [demoRuleOk, demoRuleSemErr]))).2
      = [demoRuleOk, demoRuleSemErr].map fw_dump_rule ∧
    (∀ r ∈ [demoRuleOk, demoRuleSemErr],
      fw_dump_rule r ∈ (fw_enumerate_rules (some ([demoRuleOk, demoRuleSemErr].length,
        [demoRuleOk, demoRuleSemErr]))).2) ∧
    fw_rule_status_class 0x00100020 = FW_RULE_STATUS_CLASS_SEMANTIC_ERROR ∧
    fw_rule_status_class 0x00100020 &&& FW_RULE_STATUS_ERROR ≠ 0 :=
  fw_enumerate_rules_never_drops [demoRuleOk, demoRuleSemErr] 0x00100020
    (by decide) (by decide)

end Firewall
